import Mathlib

/-!
Shallow embedding of the Health-Force XWYZ portal automation.

Sources embedded here:
* src/aws/process.py   : process_patient, process_pnr, fetch_patient_data,
  _fetch_pic_from_database, _check_request_accepted
* src/aws/__main__.py  : login, process_patients
* src/aws/webdriver.py : WebDriver.post, WebDriver.get, _get_requests,
  _get_selenium, _cookies_requests_to_selenium, _cookies_selenium_to_requests

The workflow functions are embedded in a writer-plus-error monad `PyM`:
every call returns an `Except` result together with the list of observable
actions (network requests, UI interactions, patient finalizations) that were
performed before the call returned or raised.  The cookie behaviour of the
hybrid session is embedded separately as explicit state passing on `WDState`.

External collaborators that are part of this repository but are not under
src/ (the rule engine, the PNR status resolver, the PDF validator, the
telerik document download and the per-patient wrapper class) are modelled
from the spec; each such definition carries a doc comment saying so.
-/

/-- Exceptions that the embedded code can raise.  `noMatchingCategory` is the
ValueError raised by the category fallback loop, `indexError` the unchecked
`[0]` on an empty list, `missingElement` a selenium element lookup failure,
`missingCredentials` the ValueError raised by `login`, `unknownBackend` the
ValueError raised by `WebDriver.get`. -/
inductive PyError where
  | noMatchingCategory
  | indexError
  | missingElement (ident : String)
  | missingCredentials
  | unknownBackend (b : String)
  deriving DecidableEq, Repr

/-- Observable actions performed by the embedded code, in execution order. -/
inductive Event where
  | evPost (url : String) (payload : List (String × String))
  | evGetReq (url : String)
  | evGetSel (url : String)
  | evClick (ident : String)
  | evClickItem (label : String)
  | evSendKeys (ident : String) (text : String)
  | evFetchPdf (pic : String)
  | evCheckPdf (pic : String)
  | evAddPatient (pic : Option String) (comment : String)
  | evQuit
  deriving DecidableEq, Repr

/-- `True` on the events that reach the portal over the network
(form POSTs, lightweight GETs, interactive navigations, document downloads). -/
def isNetworkEvent : Event → Bool
  | Event.evPost _ _ => true
  | Event.evGetReq _ => true
  | Event.evGetSel _ => true
  | Event.evFetchPdf _ => true
  | _ => false

/-- `True` exactly on `evAddPatient`, the finalization of one patient. -/
def isAddPatient : Event → Bool
  | Event.evAddPatient _ _ => true
  | _ => false

/-- Number of patient finalizations in a trace. -/
def countAddPatient (tr : List Event) : Nat := tr.countP isAddPatient

/-- One row of the JSON `Data` array returned by the paginated search
endpoint; the code reads only its `NumeroAuth` column. -/
structure AuthRow where
  numeroAuth : String
  deriving DecidableEq, Repr

/-- The patient record (the `patient_data` dict of process.py): intake fields
plus the workflow-derived fields `age`, `pnr_status` and `pic`.  The derived
fields start absent (`none` / `0`). -/
structure PatientData where
  birthday : Int
  pnr : List String
  esame : String
  prestazioni : String
  insurance_name : String
  codice_fiscale : String
  age : Nat := 0
  pnrStatus : Option Nat := none
  pic : Option String := none
  deriving DecidableEq, Repr

/-- One rule of a rule group: a boolean condition over the record and the
action text recorded when the condition holds. -/
structure RuleItem (α : Type) where
  cond : α → Bool
  action : String

/-- Modelled from the spec: the externally configured rule document consumed
by `RULES_ENGINE` (module rules_engine, not under src/).  Named groups, each
an ordered list of condition/action pairs; immutable during a run.  The pdf
group is evaluated against the validator error codes, the others against the
patient record. -/
structure RulesConfig where
  dealBreakers : List (RuleItem PatientData)
  patientRules : List (RuleItem PatientData)
  pdfRules : List (RuleItem (List String))
  webportalRules : List (RuleItem PatientData)

/-- The fixed external environment of one run: what the portal and the other
out-of-scope collaborators answer.  `pageText` gives the body returned by a
lightweight GET, `statusOf` is the marker-based status resolution of
`PNR_STATUS_MANAGER.get_pnr_status` (module pnr_status, not under src/,
modelled from the spec as an opaque resolver from page content to a coarse
status code), `picData` the `Data` rows returned by the paginated search for
a tracking id, `kItems` the texts of the `.k-item` option elements offered by
the category picker, `verificaMessages` the texts found at the
`//h4/following-sibling::p` elements, `pdfCodes` the validator output for a
document, `hasElement` whether a fixed-id element is present on the page,
`ageOf` the age computed from a birthday, and `serverCookies` the cookies a
response to the given url sets. -/
structure World where
  pageText : String → String
  statusOf : String → Nat
  picData : String → List AuthRow
  kItems : List String
  verificaMessages : List String
  pdfCodes : String → List String
  hasElement : String → Bool
  ageOf : Int → Nat
  serverCookies : String → List (String × String)

/-- The writer-plus-error monad of the embedding: a result (or a raised
exception) together with the actions performed before returning or raising. -/
def PyM (α : Type) : Type := Except PyError α × List Event

/-- Return a value, performing no action. -/
def pyPure {α : Type} (a : α) : PyM α := (Except.ok a, [])

/-- Raise an exception, performing no action. -/
def pyFail {α : Type} (e : PyError) : PyM α := (Except.error e, [])

/-- Perform one observable action. -/
def pyEmit (ev : Event) : PyM Unit := (Except.ok (), [ev])

/-- Sequencing: a raised exception propagates, keeping the actions already
performed; otherwise the continuation runs and its actions are appended. -/
def pyBind {α β : Type} : PyM α → (α → PyM β) → PyM β
  | (Except.error e, tr), _ => (Except.error e, tr)
  | (Except.ok a, tr), f => ((f a).1, tr ++ (f a).2)

instance : Monad PyM where
  pure := pyPure
  bind := pyBind

/- ----------------------------------------------------------------
   Hybrid session cookie model (src/aws/webdriver.py)
   ---------------------------------------------------------------- -/

/-- A cookie held by the interactive (selenium) engine: selenium cookies
carry a domain. -/
structure SelCookie where
  name : String
  value : String
  domain : String
  deriving DecidableEq, Repr

/-- The mutable state of the hybrid session: the lightweight (requests) jar
as seen through `get_dict()` (name/value pairs, no domain), the interactive
jar with domains, the domain of the page the interactive engine is currently
on, and `current_url`. -/
structure WDState where
  reqCookies : List (String × String)
  selCookies : List SelCookie
  selCurrentDomain : Option String
  currentUrl : Option String
  deriving DecidableEq, Repr

/-- `urlparse(url).netloc` for the urls the code builds. -/
def netloc (url : String) : String :=
  if url.startsWith "https://" then (url.drop 8).takeWhile (fun c => c ≠ '/')
  else if url.startsWith "http://" then (url.drop 7).takeWhile (fun c => c ≠ '/')
  else ""

/-- `requests` jar update: `cookies.set(name, value)` replaces by name. -/
def setReqCookie (jar : List (String × String)) (nv : String × String) :
    List (String × String) :=
  nv :: jar.filter (fun x => x.1 ≠ nv.1)

/-- Interactive jar update: `add_cookie` replaces the cookie with the same
name on the same domain. -/
def setSelCookie (jar : List SelCookie) (c : SelCookie) : List SelCookie :=
  c :: jar.filter (fun x => ¬ (x.name = c.name ∧ x.domain = c.domain))

/-- `selenium.get_cookies()`: the cookies visible on the current page, i.e.
those whose domain is the domain the browser is currently on. -/
def selGetCookies (s : WDState) : List SelCookie :=
  match s.selCurrentDomain with
  | none => []
  | some d => s.selCookies.filter (fun c => c.domain = d)

/-- A bare interactive navigation to `https://d`: the browser lands on
domain `d` and the response may set cookies for `d`. -/
def bareNavigate (w : World) (s : WDState) (d : String) : WDState :=
  { s with
    selCurrentDomain := some d
    selCookies := (w.serverCookies ("https://" ++ d)).foldl
      (fun jar nv => setSelCookie jar ⟨nv.1, nv.2, d⟩) s.selCookies }

/-- An interactive navigation to an arbitrary url. -/
def navigateSelenium (w : World) (s : WDState) (url : String) : WDState :=
  let d := netloc url
  { s with
    selCurrentDomain := some d
    selCookies := (w.serverCookies url).foldl
      (fun jar nv => setSelCookie jar ⟨nv.1, nv.2, d⟩) s.selCookies }

/-- `_cookies_requests_to_selenium(fetched_url)`: take the lightweight jar
(`get_dict()`), find whether the fetched domain already appears among the
cookies the interactive engine currently sees, otherwise perform one bare
navigation to the domain, then inject every lightweight cookie into the
interactive engine (which attaches it to the domain the browser is on). -/
def cookies_requests_to_selenium (w : World) (s : WDState) (fetchedUrl : String) :
    WDState :=
  let fetchedDomain := netloc fetchedUrl
  let s1 :=
    if (selGetCookies s).any (fun c => c.domain = fetchedDomain) then s
    else bareNavigate w s fetchedDomain
  { s1 with
    selCookies := s.reqCookies.foldl
      (fun jar nv => setSelCookie jar ⟨nv.1, nv.2, s1.selCurrentDomain.getD ""⟩)
      s1.selCookies }

/-- `_cookies_selenium_to_requests()`: copy the cookies the interactive
engine currently sees into the lightweight jar, replacing by name. -/
def cookies_selenium_to_requests (s : WDState) : WDState :=
  { s with
    reqCookies := (selGetCookies s).foldl
      (fun jar c => setReqCookie jar (c.name, c.value)) s.reqCookies }

/-- `WebDriver.post`: a lightweight POST.  The response may set cookies in
the lightweight jar; no synchronization with the interactive engine runs. -/
def wdPost (w : World) (s : WDState) (url : String)
    (_payload : List (String × String)) : WDState :=
  { s with reqCookies := (w.serverCookies url).foldl setReqCookie s.reqCookies }

/-- `_get_requests`: a lightweight GET, then requests-to-selenium cookie
sync, then `current_url` update; returns the response body. -/
def get_requests (w : World) (s : WDState) (url : String) : WDState :=
  let s1 := { s with reqCookies := (w.serverCookies url).foldl setReqCookie s.reqCookies }
  let s2 := cookies_requests_to_selenium w s1 url
  { s2 with currentUrl := some url }

/-- `_get_selenium`: an interactive navigation, then selenium-to-requests
cookie sync, then `current_url` update.  The python function has no return
statement, so it yields no response value. -/
def get_selenium (w : World) (s : WDState) (url : String) : WDState :=
  let s1 := navigateSelenium w s url
  let s2 := cookies_selenium_to_requests s1
  { s2 with currentUrl := some url }

/-- `WebDriver.get(url, backend)`: dispatch on the backend name; the
selenium branch yields no response value (python `None`), the requests
branch yields the response body, any other name raises. -/
def wdGet (w : World) (s : WDState) (url : String) (backend : String) :
    Except PyError (WDState × Option String) :=
  if backend = "selenium" then Except.ok (get_selenium w s url, none)
  else if backend = "requests" then
    Except.ok (get_requests w s url, some (w.pageText url))
  else Except.error (PyError.unknownBackend backend)

/-- The name/value pairs the interactive engine holds for domain `d`. -/
def selCookiesFor (s : WDState) (d : String) : List (String × String) :=
  (s.selCookies.filter (fun c => c.domain = d)).map (fun c => (c.name, c.value))

/- ----------------------------------------------------------------
   Rule engine (modelled from the spec) and workflow (src/aws/process.py)
   ---------------------------------------------------------------- -/

/-- The action texts of the rules of a group that match the record, in
authored order. -/
def matchedActions {α : Type} (g : List (RuleItem α)) (rec : α) : List String :=
  (g.filter (fun r => r.cond rec)).map (fun r => r.action)

/-- Modelled from the spec: `RULES_ENGINE.execute(groupName, record,
comments)` (module rules_engine, not under src/).  Evaluates every rule of
the group in authored order, appends every matched action text to the shared
comment log, and returns the count of matched rules together with the
matched action texts. -/
def executeRules {α : Type} (g : List (RuleItem α)) (rec : α)
    (comments : List String) : (Nat × List String) × List String :=
  let acts := matchedActions g rec
  ((acts.length, acts), comments ++ acts)

/-- `" / ".join(...)`. -/
def joinSlash (xs : List String) : String := String.intercalate " / " xs

def urlCercaQuadro (pnr : String) : String :=
  "https://app.investire-in-italy.it/GestionePNR/CercaQuadro?PNR=" ++ pnr

def urlGridAuth : String :=
  "https://app.investire-in-italy.it/CentriDiagnostici/ControlloQuadri/GridAutorizzazioni_Read"

def urlIdentify : String :=
  "https://app.investire-in-italy.it/CentriDiagnostici/ControlloQuadri/Index2"

/-- The login url exactly as written in src/aws/__main__.py. -/
def urlLogin : String :=
  "https://app.investire-in-italy/CentriDiagnostici/MenuCentri"

/-- The payload of the paginated search POST (the integers 1 and 50 are
rendered as the strings the form encoding sends). -/
def gridPayload (pnr : String) : List (String × String) :=
  [("page", "1"), ("pageSize", "50"), ("FieldFilter", pnr)]

def multiselectSel : String := ".k-widget.k-multiselect.k-multiselect-clearable"

/-- `webdriver.find_element`: raises when the element is absent. -/
def findElement (w : World) (ident : String) : PyM Unit :=
  if w.hasElement ident then pyPure () else pyFail (PyError.missingElement ident)

/-- The ordered candidate list of the category fallback:
the recorded procedure code, then the two generic categories. -/
def codesToTry (codePrestazioni : String) : List String :=
  [codePrestazioni, "Visite specialistiche", "Altre prestazioni"]

/-- The nested loop of `_check_request_accepted`: for each candidate code in
order, scan the offered `.k-item` elements for one whose text equals the
code; the first candidate found among the items wins. -/
def findCategory (items : List String) : List String → Option String
  | [] => none
  | c :: rest =>
    match items.find? (fun t => t = c) with
    | some t => some t
    | none => findCategory items rest

/-- The first clicked category option in a trace, if any. -/
def selectedCategory : List Event → Option String
  | [] => none
  | Event.evClickItem c :: _ => some c
  | _ :: rest => selectedCategory rest

/-- `_check_request_accepted`: the interactive confirmation sequence.
Navigate to the confirmation page, enter the tracking id, submit the search,
acknowledge the match, open the category picker, run the category fallback
loop (raising ValueError when no candidate matches any offered option), click
the found option, verify, read the insurance message (an unchecked `[0]` on
the matched elements), enter the esame text, re-issue the search and submit. -/
def check_request_accepted (w : World) (pnr esame prestazioni : String) :
    PyM Unit := do
  pyEmit (Event.evGetSel urlIdentify)
  findElement w "PNR"
  pyEmit (Event.evSendKeys "PNR" pnr)
  findElement w "cercaQuadro"
  pyEmit (Event.evClick "cercaQuadro")
  findElement w "btnQuadroOK"
  pyEmit (Event.evClick "btnQuadroOK")
  findElement w multiselectSel
  pyEmit (Event.evClick multiselectSel)
  match findCategory w.kItems (codesToTry prestazioni) with
  | none => pyFail PyError.noMatchingCategory
  | some cat => do
    pyEmit (Event.evClickItem cat)
    findElement w "btnVerifica"
    pyEmit (Event.evClick "btnVerifica")
    match w.verificaMessages.head? with
    | none => pyFail PyError.indexError
    | some _ => do
      findElement w "NoteAuth"
      pyEmit (Event.evSendKeys "NoteAuth" esame)
      findElement w "cercaQuadro"
      pyEmit (Event.evClick "cercaQuadro")
      findElement w "btnIstruisci"
      pyEmit (Event.evClick "btnIstruisci")

/-- `fetch_patient_data`: a lightweight GET on the tracking lookup endpoint,
returning the page body. -/
def fetch_patient_data (w : World) (pnr : String) : PyM String :=
  (Except.ok (w.pageText (urlCercaQuadro pnr)), [Event.evGetReq (urlCercaQuadro pnr)])

/-- `_fetch_pic_from_database`: POST the paginated search filtered by the
tracking id and read `Data[0].NumeroAuth`; an empty `Data` raises the
unchecked IndexError of `[0]`. -/
def fetch_pic_from_database (w : World) (pnr : String) : PyM String :=
  match (w.picData pnr).head? with
  | none => (Except.error PyError.indexError, [Event.evPost urlGridAuth (gridPayload pnr)])
  | some row => (Except.ok row.numeroAuth, [Event.evPost urlGridAuth (gridPayload pnr)])

/-- Modelled from the spec: `fetch_telerik_pdf` (module telerik_bypass, not
under src/) downloads the document associated with the authorization id. -/
def fetch_telerik_pdf (pic : String) : PyM Unit :=
  (Except.ok (), [Event.evFetchPdf pic])

/-- Modelled from the spec: `check_pdf` (module read_pdf, not under src/)
validates the downloaded document and returns a set of error codes. -/
def check_pdf (w : World) (pic : String) : PyM (List String) :=
  (Except.ok (w.pdfCodes pic), [Event.evCheckPdf pic])

/-- The status obtained for a tracking id: the resolver applied to the
fetched lookup page. -/
def statusForPnr (w : World) (pnr : String) : Nat :=
  w.statusOf (w.pageText (urlCercaQuadro pnr))

/-- `process_pnr`: fetch the tracking page once, resolve the status, and
branch: status 1 or 2 allows the authorization id download (running the
interactive confirmation first exactly when the status is 1), then the
document fetch, the validation and two rule groups; any other status leaves
the authorization id `none`.  The webportal rule group always runs after the
branch. -/
def process_pnr (w : World) (cfg : RulesConfig) (pd0 : PatientData)
    (pnr : String) (comments : List String) : PyM (PatientData × List String) := do
  let html ← fetch_patient_data w pnr
  let pd1 := { pd0 with pnrStatus := some (w.statusOf html) }
  let branch : PyM (PatientData × List String) :=
    if pd1.pnrStatus = some 1 ∨ pd1.pnrStatus = some 2 then do
      (if pd1.pnrStatus = some 1 then
        check_request_accepted w pnr pd1.esame pd1.prestazioni
      else pyPure ())
      let pic ← fetch_pic_from_database w pnr
      let pd2 := { pd1 with pic := some pic }
      fetch_telerik_pdf pic
      let codes ← check_pdf w pic
      let c1 := (executeRules cfg.patientRules pd2 comments).2
      let c2 := (executeRules cfg.pdfRules codes c1).2
      pyPure (pd2, c2)
    else
      pyPure ({ pd1 with pic := none }, comments)
  let pc ← branch
  let c3 := (executeRules cfg.webportalRules pc.1 pc.2).2
  pyPure (pc.1, c3)

/-- The per-tracking-id loop of `process_patient`: every tracking id of the
patient is processed in list order, threading the record and the shared
comment log through the iterations. -/
def processPnrList (w : World) (cfg : RulesConfig) :
    PatientData → List String → List String → PyM (PatientData × List String)
  | pd, [], comments => pyPure (pd, comments)
  | pd, pnr :: rest, comments => do
    let pc ← process_pnr w cfg pd pnr comments
    processPnrList w cfg pc.1 rest pc.2

/-- `process_patient` (the free function of src/aws/process.py): compute the
age, run the deal-breaker rule group first; when one or more rules match,
finalize the patient immediately with authorization id `none` and the joined
matched action texts, processing no tracking id; otherwise run the
per-tracking-id loop and finalize with the accumulated comments. -/
def process_patient (w : World) (cfg : RulesConfig) (pd0 : PatientData) :
    PyM Unit := do
  let pd := { pd0 with age := w.ageOf pd0.birthday }
  let er := executeRules cfg.dealBreakers pd []
  if er.1.1 > 0 then do
    let pd1 := { pd with pic := none }
    pyEmit (Event.evAddPatient pd1.pic (joinSlash er.1.2))
  else do
    let pc ← processPnrList w cfg pd pd.pnr er.2
    pyEmit (Event.evAddPatient pc.1.pic (joinSlash pc.2))

/-- The comment text recorded for a recovered per-patient error. -/
def errorComment : PyError → String
  | PyError.noMatchingCategory => "Unable to find prestazioni with any of the provided codes"
  | PyError.indexError => "list index out of range"
  | PyError.missingElement ident => "Unable to locate element: " ++ ident
  | PyError.missingCredentials => "missing credentials"
  | PyError.unknownBackend b => "Unknown backend " ++ b

/-- Modelled from the spec: `PatientProcessor.process_patient`, the
per-patient wrapper the batch loop of src/aws/__main__.py calls (the class
is not under src/; only its caller is).  Per the error policy of the spec,
an error attributable to one patient is recovered by recording a comment on
that patient and proceeding; it never aborts the batch. -/
def patientProcessorProcess (w : World) (cfg : RulesConfig)
    (pd : PatientData) : List Event :=
  match process_patient w cfg pd with
  | (Except.ok _, tr) => tr
  | (Except.error e, tr) => tr ++ [Event.evAddPatient none (errorComment e)]

/-- The batch loop of `process_patients`: each patient in input order. -/
def patientsLoop (w : World) (cfg : RulesConfig) : List PatientData → List Event
  | [] => []
  | pd :: rest => patientProcessorProcess w cfg pd ++ patientsLoop w cfg rest

/-- `login`: empty username or password raises before anything is sent;
otherwise the same authenticating POST is submitted twice in immediate
sequence against the portal login form. -/
def login (username password : String) : PyM Unit :=
  if username = "" ∨ password = "" then (Except.error PyError.missingCredentials, [])
  else
    (Except.ok (),
      [Event.evPost urlLogin [("UserName", username), ("Password", password)],
       Event.evPost urlLogin [("UserName", username), ("Password", password)]])

/-- `process_patients`: log in, process the batch, then release the
interactive engine.  The quit call is a plain statement after the loop: an
exception raised before it (for example by `login`) skips it. -/
def process_patients (w : World) (cfg : RulesConfig)
    (patients : List PatientData) (username password : String) : PyM Unit :=
  match login username password with
  | (Except.error e, tr) => (Except.error e, tr)
  | (Except.ok _, tr) =>
    (Except.ok (), tr ++ patientsLoop w cfg patients ++ [Event.evQuit])

/-- The actions of a completed confirmation sequence that selected the
category option `cat`. -/
def confirmTrace (pnr esame cat : String) : List Event :=
  [Event.evGetSel urlIdentify, Event.evSendKeys "PNR" pnr,
   Event.evClick "cercaQuadro", Event.evClick "btnQuadroOK",
   Event.evClick multiselectSel, Event.evClickItem cat,
   Event.evClick "btnVerifica", Event.evSendKeys "NoteAuth" esame,
   Event.evClick "cercaQuadro", Event.evClick "btnIstruisci"]

/-- The actions performed before the category fallback loop runs. -/
def preCategoryTrace (pnr : String) : List Event :=
  [Event.evGetSel urlIdentify, Event.evSendKeys "PNR" pnr,
   Event.evClick "cercaQuadro", Event.evClick "btnQuadroOK",
   Event.evClick multiselectSel]

/- ----------------------------------------------------------------
   Concrete instances used by witnesses and counterexamples
   ---------------------------------------------------------------- -/

/-- A fresh hybrid session: both jars empty, no page visited. -/
def wd0 : WDState :=
  { reqCookies := [], selCookies := [], selCurrentDomain := none, currentUrl := none }

/-- A session whose lightweight jar already holds one cookie. -/
def wdSid : WDState :=
  { reqCookies := [("sid", "abc")], selCookies := []
    selCurrentDomain := none, currentUrl := none }

/-- A baseline environment: empty portal answers, every element present. -/
def wBase : World :=
  { pageText := fun _ => ""
    statusOf := fun _ => 0
    picData := fun _ => []
    kItems := []
    verificaMessages := []
    pdfCodes := fun _ => []
    hasElement := fun _ => true
    ageOf := fun _ => 0
    serverCookies := fun _ => [] }

/-- An empty rule configuration. -/
def cfg0 : RulesConfig :=
  { dealBreakers := [], patientRules := [], pdfRules := [], webportalRules := [] }

/-- A baseline patient record. -/
def pdX : PatientData :=
  { birthday := 0, pnr := [], esame := "RMN COLONNA", prestazioni := "PRSZ"
    insurance_name := "QUAS", codice_fiscale := "CF123", age := 0
    pnrStatus := none, pic := none }

/-- An environment where every tracking page resolves to status 1 but the
category picker offers no option: the confirmation raises. -/
def w1 : World :=
  { wBase with pageText := fun u => u, statusOf := fun _ => 1
               verificaMessages := ["ok"] }

/-- A patient with one tracking id. -/
def pd1p : PatientData := { pdX with pnr := ["XB1"] }

/-- An environment offering only the generic "Altre prestazioni" option. -/
def w3 : World :=
  { wBase with kItems := ["Altre prestazioni"], verificaMessages := ["ok"] }

/-- An environment where every tracking page resolves to status 0. -/
def w4 : World := { wBase with pageText := fun u => u }

/-- A patient with two tracking ids. -/
def pd4 : PatientData := { pdX with pnr := ["A1", "A2"] }

/-- An environment where every tracking page resolves to status 2 and the
paginated search returns one row. -/
def w5 : World :=
  { wBase with statusOf := fun _ => 2, picData := fun _ => [⟨"PIC1"⟩] }

/-- A patient with one tracking id. -/
def pd5 : PatientData := { pdX with pnr := ["B1"] }

/-- A rule configuration whose deal-breaker group matches every record. -/
def cfg6 : RulesConfig :=
  { dealBreakers := [⟨fun _ => true, "missing data"⟩]
    patientRules := [], pdfRules := [], webportalRules := [] }

/- ----------------------------------------------------------------
   Monad and trace helper lemmas
   ---------------------------------------------------------------- -/

theorem pyBind_err {α β : Type} (e : PyError) (tr : List Event) (f : α → PyM β) :
    pyBind (Except.error e, tr) f = (Except.error e, tr) := rfl

theorem pyBind_ok {α β : Type} (a : α) (tr : List Event) (f : α → PyM β) :
    pyBind (Except.ok a, tr) f = ((f a).1, tr ++ (f a).2) := rfl

theorem bind_eq {α β : Type} (x : PyM α) (f : α → PyM β) : x >>= f = pyBind x f := rfl

theorem pyBind_assoc {α β γ : Type} (x : PyM α) (f : α → PyM β) (g : β → PyM γ) :
    pyBind (pyBind x f) g = pyBind x (fun a => pyBind (f a) g) := by
  rcases x with ⟨r, tr⟩
  cases r with
  | error e => rfl
  | ok a =>
    rcases h : f a with ⟨rf, trf⟩
    cases rf with
    | error e => simp [pyBind, h]
    | ok b => simp [pyBind, h]

theorem pyBind_pyPure {α : Type} (x : PyM α) : pyBind x (fun a => pyPure a) = x := by
  rcases x with ⟨r, tr⟩
  cases r with
  | error e => rfl
  | ok a => simp [pyBind, pyPure]

/-- If a sequencing succeeded, both parts succeeded and the trace is the
concatenation of their traces. -/
theorem pyBind_ok_inv {α β : Type} (x : PyM α) (f : α → PyM β) (b : β)
    (tr : List Event) (h : pyBind x f = (Except.ok b, tr)) :
    ∃ a tr1 tr2, x = (Except.ok a, tr1) ∧ f a = (Except.ok b, tr2) ∧
      tr = tr1 ++ tr2 := by
  rcases x with ⟨r, tr0⟩
  cases r with
  | error e =>
    rw [pyBind_err, Prod.mk.injEq] at h
    exact absurd h.1 (by simp)
  | ok a =>
    rcases hfa : f a with ⟨rf, trf⟩
    rw [pyBind_ok, hfa] at h
    injection h with h1 h2
    have h1' : rf = Except.ok b := h1
    have h2' : tr0 ++ trf = tr := h2
    refine ⟨a, tr0, trf, rfl, ?_, h2'.symm⟩
    rw [hfa, h1']

theorem countAddPatient_nil : countAddPatient [] = 0 := rfl

theorem countAddPatient_append (a b : List Event) :
    countAddPatient (a ++ b) = countAddPatient a + countAddPatient b := by
  simp [countAddPatient, List.countP_append]

theorem countAdd_pyBind {α β : Type} (x : PyM α) (f : α → PyM β)
    (hx : countAddPatient x.2 = 0) (hf : ∀ a, countAddPatient (f a).2 = 0) :
    countAddPatient (pyBind x f).2 = 0 := by
  rcases x with ⟨r, tr⟩
  cases r with
  | error e => simpa [pyBind] using hx
  | ok a =>
    have hx' : countAddPatient tr = 0 := hx
    have hfa : countAddPatient (f a).2 = 0 := hf a
    rw [pyBind_ok]
    show countAddPatient (tr ++ (f a).2) = 0
    rw [countAddPatient_append, hx', hfa]

theorem countAdd_pyEmit (ev : Event) (h : isAddPatient ev = false) :
    countAddPatient (pyEmit ev).2 = 0 := by
  simp [pyEmit, countAddPatient, List.countP_cons, h]

theorem countAdd_pyPure {α : Type} (a : α) : countAddPatient (pyPure a).2 = 0 := rfl

theorem countAdd_pyFail {α : Type} (e : PyError) :
    countAddPatient (pyFail e : PyM α).2 = 0 := rfl

theorem countAdd_findElement (w : World) (ident : String) :
    countAddPatient (findElement w ident).2 = 0 := by
  unfold findElement
  split
  · rfl
  · rfl

/- ----------------------------------------------------------------
   Trace lemmas for the confirmation procedure and the workflow
   ---------------------------------------------------------------- -/

theorem countAdd_check (w : World) (pnr esame code : String) :
    countAddPatient (check_request_accepted w pnr esame code).2 = 0 := by
  unfold check_request_accepted
  simp only [bind_eq]
  refine countAdd_pyBind _ _ (countAdd_pyEmit _ rfl) (fun _ => ?_)
  refine countAdd_pyBind _ _ (countAdd_findElement _ _) (fun _ => ?_)
  refine countAdd_pyBind _ _ (countAdd_pyEmit _ rfl) (fun _ => ?_)
  refine countAdd_pyBind _ _ (countAdd_findElement _ _) (fun _ => ?_)
  refine countAdd_pyBind _ _ (countAdd_pyEmit _ rfl) (fun _ => ?_)
  refine countAdd_pyBind _ _ (countAdd_findElement _ _) (fun _ => ?_)
  refine countAdd_pyBind _ _ (countAdd_pyEmit _ rfl) (fun _ => ?_)
  refine countAdd_pyBind _ _ (countAdd_findElement _ _) (fun _ => ?_)
  refine countAdd_pyBind _ _ (countAdd_pyEmit _ rfl) (fun _ => ?_)
  cases hfc : findCategory w.kItems (codesToTry code) with
  | none => exact countAdd_pyFail _
  | some cat =>
    refine countAdd_pyBind _ _ (countAdd_pyEmit _ rfl) (fun _ => ?_)
    refine countAdd_pyBind _ _ (countAdd_findElement _ _) (fun _ => ?_)
    refine countAdd_pyBind _ _ (countAdd_pyEmit _ rfl) (fun _ => ?_)
    cases hm : w.verificaMessages.head? with
    | none => exact countAdd_pyFail _
    | some m =>
      refine countAdd_pyBind _ _ (countAdd_findElement _ _) (fun _ => ?_)
      refine countAdd_pyBind _ _ (countAdd_pyEmit _ rfl) (fun _ => ?_)
      refine countAdd_pyBind _ _ (countAdd_findElement _ _) (fun _ => ?_)
      refine countAdd_pyBind _ _ (countAdd_pyEmit _ rfl) (fun _ => ?_)
      refine countAdd_pyBind _ _ (countAdd_findElement _ _) (fun _ => ?_)
      exact countAdd_pyEmit _ rfl

theorem countAdd_fetch_patient_data (w : World) (pnr : String) :
    countAddPatient (fetch_patient_data w pnr).2 = 0 := rfl

theorem countAdd_fetch_pic (w : World) (pnr : String) :
    countAddPatient (fetch_pic_from_database w pnr).2 = 0 := by
  unfold fetch_pic_from_database
  cases (w.picData pnr).head? with
  | none => rfl
  | some row => rfl

theorem countAdd_process_pnr (w : World) (cfg : RulesConfig) (pd : PatientData)
    (pnr : String) (comments : List String) :
    countAddPatient (process_pnr w cfg pd pnr comments).2 = 0 := by
  unfold process_pnr
  simp only [bind_eq]
  refine countAdd_pyBind _ _ (countAdd_fetch_patient_data _ _) (fun html => ?_)
  refine countAdd_pyBind _ _ ?_ (fun pc => countAdd_pyPure _)
  split
  · refine countAdd_pyBind _ _ ?_ (fun _ => ?_)
    · split
      · exact countAdd_check _ _ _ _
      · exact countAdd_pyPure _
    · refine countAdd_pyBind _ _ (countAdd_fetch_pic _ _) (fun pic => ?_)
      refine countAdd_pyBind _ _ rfl (fun _ => ?_)
      refine countAdd_pyBind _ _ rfl (fun codes => ?_)
      exact countAdd_pyPure _
  · exact countAdd_pyPure _

theorem countAdd_processPnrList (w : World) (cfg : RulesConfig)
    (pnrs : List String) (pd : PatientData) (comments : List String) :
    countAddPatient (processPnrList w cfg pd pnrs comments).2 = 0 := by
  induction pnrs generalizing pd comments with
  | nil => exact countAdd_pyPure _
  | cons pnr rest ih =>
    unfold processPnrList
    simp only [bind_eq]
    exact countAdd_pyBind _ _ (countAdd_process_pnr _ _ _ _ _) (fun pc => ih _ _)

theorem process_pnr_other (w : World) (cfg : RulesConfig) (pd0 : PatientData)
    (pnr : String) (comments : List String) (st : Nat)
    (hst : statusForPnr w pnr = st) (h1 : st ≠ 1) (h2 : st ≠ 2) :
    process_pnr w cfg pd0 pnr comments =
      (Except.ok ({ pd0 with pnrStatus := some st, pic := none },
        (executeRules cfg.webportalRules
          { pd0 with pnrStatus := some st, pic := none } comments).2),
       [Event.evGetReq (urlCercaQuadro pnr)]) := by
  have hst' : w.statusOf (w.pageText (urlCercaQuadro pnr)) = st := hst
  have hc : ¬(some st = some (1 : Nat) ∨ some st = some 2) := by
    simp only [Option.some.injEq, not_or]
    exact ⟨h1, h2⟩
  unfold process_pnr
  simp only [fetch_patient_data, bind_eq, pyBind_ok]
  rw [hst']
  rw [if_neg hc]
  simp only [pyPure, pyBind_ok, List.nil_append, List.append_nil]

theorem process_pnr_confErr (w : World) (cfg : RulesConfig) (pd0 : PatientData)
    (pnr : String) (comments : List String) (e : PyError) (cev : List Event)
    (hst : statusForPnr w pnr = 1)
    (hconf : check_request_accepted w pnr pd0.esame pd0.prestazioni =
      (Except.error e, cev)) :
    process_pnr w cfg pd0 pnr comments =
      (Except.error e, Event.evGetReq (urlCercaQuadro pnr) :: cev) := by
  have hst' : w.statusOf (w.pageText (urlCercaQuadro pnr)) = 1 := hst
  unfold process_pnr
  simp only [fetch_patient_data, bind_eq, pyBind_ok]
  rw [hst']
  rw [if_pos (Or.inl rfl : some (1 : Nat) = some 1 ∨ some (1 : Nat) = some 2)]
  rw [if_pos (rfl : some (1 : Nat) = some 1)]
  rw [hconf]
  simp only [pyBind_err, List.singleton_append]

theorem process_pnr_status1_ok (w : World) (cfg : RulesConfig) (pd0 : PatientData)
    (pnr : String) (comments : List String) (cev : List Event)
    (row : AuthRow) (rows : List AuthRow)
    (hst : statusForPnr w pnr = 1)
    (hconf : check_request_accepted w pnr pd0.esame pd0.prestazioni =
      (Except.ok (), cev))
    (hrow : w.picData pnr = row :: rows) :
    process_pnr w cfg pd0 pnr comments =
      (Except.ok
        ({ pd0 with pnrStatus := some 1, pic := some row.numeroAuth },
         (executeRules cfg.webportalRules
            { pd0 with pnrStatus := some 1, pic := some row.numeroAuth }
            (executeRules cfg.pdfRules (w.pdfCodes row.numeroAuth)
              (executeRules cfg.patientRules
                { pd0 with pnrStatus := some 1, pic := some row.numeroAuth }
                comments).2).2).2),
       Event.evGetReq (urlCercaQuadro pnr) ::
         (cev ++ [Event.evPost urlGridAuth (gridPayload pnr),
                  Event.evFetchPdf row.numeroAuth,
                  Event.evCheckPdf row.numeroAuth])) := by
  have hst' : w.statusOf (w.pageText (urlCercaQuadro pnr)) = 1 := hst
  unfold process_pnr fetch_pic_from_database
  simp only [fetch_patient_data, bind_eq, pyBind_ok]
  rw [hst']
  rw [if_pos (Or.inl rfl : some (1 : Nat) = some 1 ∨ some (1 : Nat) = some 2)]
  rw [if_pos (rfl : some (1 : Nat) = some 1)]
  rw [hconf, hrow]
  simp only [List.head?_cons, pyBind_ok, pyBind_err, pyPure, fetch_telerik_pdf,
    check_pdf, List.nil_append, List.append_nil, List.singleton_append,
    List.cons_append, List.append_assoc]

theorem process_pnr_status1_picErr (w : World) (cfg : RulesConfig)
    (pd0 : PatientData) (pnr : String) (comments : List String) (cev : List Event)
    (hst : statusForPnr w pnr = 1)
    (hconf : check_request_accepted w pnr pd0.esame pd0.prestazioni =
      (Except.ok (), cev))
    (hrow : w.picData pnr = []) :
    process_pnr w cfg pd0 pnr comments =
      (Except.error PyError.indexError,
       Event.evGetReq (urlCercaQuadro pnr) ::
         (cev ++ [Event.evPost urlGridAuth (gridPayload pnr)])) := by
  have hst' : w.statusOf (w.pageText (urlCercaQuadro pnr)) = 1 := hst
  unfold process_pnr fetch_pic_from_database
  simp only [fetch_patient_data, bind_eq, pyBind_ok]
  rw [hst']
  rw [if_pos (Or.inl rfl : some (1 : Nat) = some 1 ∨ some (1 : Nat) = some 2)]
  rw [if_pos (rfl : some (1 : Nat) = some 1)]
  rw [hconf, hrow]
  simp only [List.head?_nil, pyBind_ok, pyBind_err, List.nil_append,
    List.append_nil, List.singleton_append, List.cons_append]

theorem process_pnr_status2_ok (w : World) (cfg : RulesConfig) (pd0 : PatientData)
    (pnr : String) (comments : List String) (row : AuthRow) (rows : List AuthRow)
    (hst : statusForPnr w pnr = 2)
    (hrow : w.picData pnr = row :: rows) :
    process_pnr w cfg pd0 pnr comments =
      (Except.ok
        ({ pd0 with pnrStatus := some 2, pic := some row.numeroAuth },
         (executeRules cfg.webportalRules
            { pd0 with pnrStatus := some 2, pic := some row.numeroAuth }
            (executeRules cfg.pdfRules (w.pdfCodes row.numeroAuth)
              (executeRules cfg.patientRules
                { pd0 with pnrStatus := some 2, pic := some row.numeroAuth }
                comments).2).2).2),
       [Event.evGetReq (urlCercaQuadro pnr),
        Event.evPost urlGridAuth (gridPayload pnr),
        Event.evFetchPdf row.numeroAuth, Event.evCheckPdf row.numeroAuth]) := by
  have hst' : w.statusOf (w.pageText (urlCercaQuadro pnr)) = 2 := hst
  unfold process_pnr fetch_pic_from_database
  simp only [fetch_patient_data, bind_eq, pyBind_ok]
  rw [hst']
  rw [if_pos (Or.inr rfl : some (2 : Nat) = some 1 ∨ some (2 : Nat) = some 2)]
  rw [if_neg (by simp : ¬ (some (2 : Nat) = some 1))]
  rw [hrow]
  simp only [List.head?_cons, pyBind_ok, pyBind_err, pyPure, fetch_telerik_pdf,
    check_pdf, List.nil_append, List.append_nil, List.singleton_append,
    List.cons_append, List.append_assoc]

theorem process_pnr_status2_picErr (w : World) (cfg : RulesConfig)
    (pd0 : PatientData) (pnr : String) (comments : List String)
    (hst : statusForPnr w pnr = 2)
    (hrow : w.picData pnr = []) :
    process_pnr w cfg pd0 pnr comments =
      (Except.error PyError.indexError,
       [Event.evGetReq (urlCercaQuadro pnr),
        Event.evPost urlGridAuth (gridPayload pnr)]) := by
  have hst' : w.statusOf (w.pageText (urlCercaQuadro pnr)) = 2 := hst
  unfold process_pnr fetch_pic_from_database
  simp only [fetch_patient_data, bind_eq, pyBind_ok]
  rw [hst']
  rw [if_pos (Or.inr rfl : some (2 : Nat) = some 1 ∨ some (2 : Nat) = some 2)]
  rw [if_neg (by simp : ¬ (some (2 : Nat) = some 1))]
  rw [hrow]
  simp only [List.head?_nil, pyBind_ok, pyBind_err, pyPure, List.nil_append,
    List.append_nil, List.singleton_append, List.cons_append]

theorem pyBind_pyPure_left {α β : Type} (a : α) (f : α → PyM β) :
    pyBind (pyPure a) f = f a := by
  show ((f a).1, [] ++ (f a).2) = f a
  rw [List.nil_append]
  exact Prod.mk.eta

theorem process_pnr_comments_mono (w : World) (cfg : RulesConfig)
    (pd : PatientData) (pnr : String) (comments : List String)
    (pd' : PatientData) (c' : List String) (tr : List Event)
    (h : process_pnr w cfg pd pnr comments = (Except.ok (pd', c'), tr)) :
    ∃ extra, c' = comments ++ extra := by
  by_cases h1 : statusForPnr w pnr = 1
  · rcases hc : check_request_accepted w pnr pd.esame pd.prestazioni with ⟨rc, cev⟩
    cases rc with
    | error e =>
      rw [process_pnr_confErr w cfg pd pnr comments e cev h1 hc] at h
      injection h with hA hB
      exact Except.noConfusion hA
    | ok u =>
      cases u
      rcases hrow : w.picData pnr with _ | ⟨row, rows⟩
      · rw [process_pnr_status1_picErr w cfg pd pnr comments cev h1 hc hrow] at h
        injection h with hA hB
        exact Except.noConfusion hA
      · rw [process_pnr_status1_ok w cfg pd pnr comments cev row rows h1 hc hrow] at h
        injection h with hA hB
        injection hA with hA'
        injection hA' with hpd hcm
        refine ⟨matchedActions cfg.patientRules
            { pd with pnrStatus := some 1, pic := some row.numeroAuth } ++
          (matchedActions cfg.pdfRules (w.pdfCodes row.numeroAuth) ++
           matchedActions cfg.webportalRules
            { pd with pnrStatus := some 1, pic := some row.numeroAuth }), ?_⟩
        rw [← hcm]
        simp [executeRules, List.append_assoc]
  · by_cases h2 : statusForPnr w pnr = 2
    · rcases hrow : w.picData pnr with _ | ⟨row, rows⟩
      · rw [process_pnr_status2_picErr w cfg pd pnr comments h2 hrow] at h
        injection h with hA hB
        exact Except.noConfusion hA
      · rw [process_pnr_status2_ok w cfg pd pnr comments row rows h2 hrow] at h
        injection h with hA hB
        injection hA with hA'
        injection hA' with hpd hcm
        refine ⟨matchedActions cfg.patientRules
            { pd with pnrStatus := some 2, pic := some row.numeroAuth } ++
          (matchedActions cfg.pdfRules (w.pdfCodes row.numeroAuth) ++
           matchedActions cfg.webportalRules
            { pd with pnrStatus := some 2, pic := some row.numeroAuth }), ?_⟩
        rw [← hcm]
        simp [executeRules, List.append_assoc]
    · rw [process_pnr_other w cfg pd pnr comments (statusForPnr w pnr) rfl h1 h2] at h
      injection h with hA hB
      injection hA with hA'
      injection hA' with hpd hcm
      refine ⟨matchedActions cfg.webportalRules
        { pd with pnrStatus := some (statusForPnr w pnr), pic := none }, ?_⟩
      rw [← hcm]
      simp [executeRules]

theorem processPnrList_comments_mono (w : World) (cfg : RulesConfig)
    (pnrs : List String) (pd : PatientData) (comments : List String)
    (pdF : PatientData) (cF : List String) (tr : List Event)
    (h : processPnrList w cfg pd pnrs comments = (Except.ok (pdF, cF), tr)) :
    ∃ extra, cF = comments ++ extra := by
  induction pnrs generalizing pd comments tr with
  | nil =>
    unfold processPnrList at h
    injection h with hA hB
    injection hA with hA'
    injection hA' with hpd hcm
    exact ⟨[], by rw [List.append_nil]; exact hcm.symm⟩
  | cons pnr rest ih =>
    unfold processPnrList at h
    rw [bind_eq] at h
    obtain ⟨pc, tr1, tr2, ha, hb, htr⟩ := pyBind_ok_inv _ _ _ _ h
    rcases pc with ⟨pdm, cm⟩
    obtain ⟨e1, he1⟩ := process_pnr_comments_mono w cfg pd pnr comments pdm cm tr1 ha
    obtain ⟨e2, he2⟩ := ih pdm cm tr2 hb
    exact ⟨e1 ++ e2, by rw [he2, he1, List.append_assoc]⟩

theorem processPnrList_append_split (w : World) (cfg : RulesConfig)
    (l1 l2 : List String) (pd : PatientData) (comments : List String) :
    processPnrList w cfg pd (l1 ++ l2) comments =
      pyBind (processPnrList w cfg pd l1 comments)
        (fun pc => processPnrList w cfg pc.1 l2 pc.2) := by
  induction l1 generalizing pd comments with
  | nil =>
    rw [List.nil_append]
    rw [show processPnrList w cfg pd [] comments = pyPure (pd, comments) from rfl]
    rw [pyBind_pyPure_left]
  | cons p l1 ih =>
    rw [List.cons_append]
    simp only [processPnrList, bind_eq]
    simp only [ih]
    rw [← pyBind_assoc]

theorem find_self_of_mem (l : List String) (c : String) (h : c ∈ l) :
    l.find? (fun t => t = c) = some c := by
  induction l with
  | nil => cases h
  | cons a l ih =>
    by_cases hac : a = c
    · subst hac
      simp [List.find?]
    · rcases List.mem_cons.mp h with h' | h'
      · exact absurd h'.symm hac
      · simp [List.find?, hac, ih h']

theorem find_none_of_not_mem (l : List String) (c : String) (h : c ∉ l) :
    l.find? (fun t => t = c) = none := by
  rw [List.find?_eq_none]
  intro x hx
  simp only [decide_eq_true_eq]
  intro hxc
  exact h (hxc ▸ hx)

theorem findCategory_mem (items : List String) (c : String) (rest : List String)
    (h : c ∈ items) : findCategory items (c :: rest) = some c := by
  unfold findCategory
  rw [find_self_of_mem items c h]

theorem findCategory_not_mem (items : List String) (c : String)
    (rest : List String) (h : c ∉ items) :
    findCategory items (c :: rest) = findCategory items rest := by
  have heq : findCategory items (c :: rest) =
      match items.find? (fun t => t = c) with
      | some t => some t
      | none => findCategory items rest := rfl
  rw [heq, find_none_of_not_mem items c h]

theorem check_ok (w : World) (pnr esame code cat : String)
    (hel : ∀ ident, w.hasElement ident = true)
    (hcat : findCategory w.kItems (codesToTry code) = some cat)
    (hmsg : w.verificaMessages ≠ []) :
    check_request_accepted w pnr esame code =
      (Except.ok (), confirmTrace pnr esame cat) := by
  obtain ⟨m, ms, hm⟩ : ∃ m ms, w.verificaMessages = m :: ms := by
    cases hv : w.verificaMessages with
    | nil => exact absurd hv hmsg
    | cons m ms => exact ⟨m, ms, rfl⟩
  unfold check_request_accepted
  rw [hcat, hm]
  simp [bind_eq, pyBind, pyEmit, pyPure, findElement, hel, confirmTrace]

theorem check_noMatch (w : World) (pnr esame code : String)
    (hel : ∀ ident, w.hasElement ident = true)
    (hcat : findCategory w.kItems (codesToTry code) = none) :
    check_request_accepted w pnr esame code =
      (Except.error PyError.noMatchingCategory, preCategoryTrace pnr) := by
  unfold check_request_accepted
  rw [hcat]
  simp [bind_eq, pyBind, pyEmit, pyPure, pyFail, findElement, hel, preCategoryTrace]

theorem selectedCategory_confirmTrace (pnr esame cat : String) :
    selectedCategory (confirmTrace pnr esame cat) = some cat := rfl

theorem process_patient_dealBreaker (w : World) (cfg : RulesConfig)
    (pd0 : PatientData)
    (h : 0 < (matchedActions cfg.dealBreakers
      { pd0 with age := w.ageOf pd0.birthday }).length) :
    process_patient w cfg pd0 =
      (Except.ok (), [Event.evAddPatient none
        (joinSlash (matchedActions cfg.dealBreakers
          { pd0 with age := w.ageOf pd0.birthday }))]) := by
  unfold process_patient executeRules
  dsimp only
  rw [if_pos h]
  rfl

theorem process_patient_loop (w : World) (cfg : RulesConfig) (pd0 : PatientData)
    (h : (matchedActions cfg.dealBreakers
      { pd0 with age := w.ageOf pd0.birthday }).length = 0) :
    process_patient w cfg pd0 =
      pyBind
        (processPnrList w cfg { pd0 with age := w.ageOf pd0.birthday } pd0.pnr
          (matchedActions cfg.dealBreakers { pd0 with age := w.ageOf pd0.birthday }))
        (fun pc => pyEmit (Event.evAddPatient pc.1.pic (joinSlash pc.2))) := by
  unfold process_patient executeRules
  dsimp only
  rw [if_neg (by rw [h]; exact Nat.lt_irrefl 0)]
  rfl

theorem countAdd_process_patient (w : World) (cfg : RulesConfig)
    (pd0 : PatientData) :
    (∀ tr, process_patient w cfg pd0 = (Except.ok (), tr) →
      countAddPatient tr = 1) ∧
    (∀ e tr, process_patient w cfg pd0 = (Except.error e, tr) →
      countAddPatient tr = 0) := by
  by_cases hdb : 0 < (matchedActions cfg.dealBreakers
      { pd0 with age := w.ageOf pd0.birthday }).length
  · constructor
    · intro tr h
      rw [process_patient_dealBreaker w cfg pd0 hdb] at h
      injection h with hA hB
      rw [← hB]
      rfl
    · intro e tr h
      rw [process_patient_dealBreaker w cfg pd0 hdb] at h
      injection h with hA hB
      exact Except.noConfusion hA
  · have hz : (matchedActions cfg.dealBreakers
        { pd0 with age := w.ageOf pd0.birthday }).length = 0 :=
      Nat.eq_zero_of_not_pos hdb
    constructor
    · intro tr h
      rw [process_patient_loop w cfg pd0 hz] at h
      obtain ⟨pc, tr1, tr2, ha, hb, htr⟩ := pyBind_ok_inv _ _ _ _ h
      injection hb with hB1 hB2
      subst htr
      rw [countAddPatient_append]
      have h1 : countAddPatient tr1 = 0 := by
        have h2 := countAdd_processPnrList w cfg pd0.pnr
          { pd0 with age := w.ageOf pd0.birthday }
          (matchedActions cfg.dealBreakers { pd0 with age := w.ageOf pd0.birthday })
        rw [ha] at h2
        exact h2
      rw [h1, ← hB2]
      rfl
    · intro e tr h
      rw [process_patient_loop w cfg pd0 hz] at h
      rcases hx : processPnrList w cfg { pd0 with age := w.ageOf pd0.birthday }
        pd0.pnr (matchedActions cfg.dealBreakers
          { pd0 with age := w.ageOf pd0.birthday }) with ⟨rx, trx⟩
      rw [hx] at h
      cases rx with
      | error e2 =>
        rw [pyBind_err] at h
        injection h with hA hB
        rw [← hB]
        have h2 := countAdd_processPnrList w cfg pd0.pnr
          { pd0 with age := w.ageOf pd0.birthday }
          (matchedActions cfg.dealBreakers { pd0 with age := w.ageOf pd0.birthday })
        rw [hx] at h2
        exact h2
      | ok pc =>
        rw [pyBind_ok] at h
        injection h with hA hB
        exact Except.noConfusion hA

theorem countAdd_patientProcessor (w : World) (cfg : RulesConfig)
    (pd : PatientData) :
    countAddPatient (patientProcessorProcess w cfg pd) = 1 := by
  unfold patientProcessorProcess
  rcases hp : process_patient w cfg pd with ⟨r, tr⟩
  cases r with
  | ok u =>
    cases u
    exact (countAdd_process_patient w cfg pd).1 tr hp
  | error e =>
    show countAddPatient (tr ++ [Event.evAddPatient none (errorComment e)]) = 1
    rw [countAddPatient_append, (countAdd_process_patient w cfg pd).2 e tr hp]
    rfl

theorem countAdd_patientsLoop (w : World) (cfg : RulesConfig)
    (patients : List PatientData) :
    countAddPatient (patientsLoop w cfg patients) = patients.length := by
  induction patients with
  | nil => rfl
  | cons pd rest ih =>
    unfold patientsLoop
    rw [countAddPatient_append, countAdd_patientProcessor, ih,
      List.length_cons, Nat.add_comm]

theorem check_trace_head (w : World) (pnr esame code : String) :
    ∃ rest, (check_request_accepted w pnr esame code).2 =
      Event.evGetSel urlIdentify :: rest := by
  exact ⟨_, rfl⟩

/- ----------------------------------------------------------------
   Cookie synchronization lemmas
   ---------------------------------------------------------------- -/

theorem setReqCookie_names_nodup (jar : List (String × String))
    (nv : String × String) (h : (jar.map Prod.fst).Nodup) :
    ((setReqCookie jar nv).map Prod.fst).Nodup := by
  unfold setReqCookie
  rw [List.map_cons, List.nodup_cons]
  constructor
  · intro hmem
    rcases List.mem_map.mp hmem with ⟨x, hx, hx1⟩
    rcases List.mem_filter.mp hx with ⟨hxj, hxne⟩
    exact (of_decide_eq_true hxne) hx1
  · exact List.Nodup.sublist (List.Sublist.map Prod.fst (List.filter_sublist jar)) h

theorem foldl_setReqCookie_nodup (l : List (String × String)) :
    ∀ jar, (jar.map Prod.fst).Nodup →
      ((l.foldl setReqCookie jar).map Prod.fst).Nodup := by
  induction l with
  | nil => intro jar h; exact h
  | cons nv l ih => intro jar h; exact ih _ (setReqCookie_names_nodup jar nv h)

theorem mem_setSelCookie_of_ne (jar : List SelCookie) (c x : SelCookie)
    (hc : c ∈ jar) (hne : c.name ≠ x.name) : c ∈ setSelCookie jar x := by
  unfold setSelCookie
  apply List.mem_cons_of_mem
  refine List.mem_filter.mpr ⟨hc, ?_⟩
  apply decide_eq_true
  intro hand
  exact hne hand.1

theorem mem_foldl_setSel_stable (l : List (String × String)) (d : String)
    (c : SelCookie) :
    ∀ jar, c ∈ jar → (∀ nv ∈ l, c.name ≠ nv.1) →
      c ∈ l.foldl (fun j x => setSelCookie j ⟨x.1, x.2, d⟩) jar := by
  induction l with
  | nil => intro jar hc _; exact hc
  | cons nv l ih =>
    intro jar hc hne
    exact ih _
      (mem_setSelCookie_of_ne jar c ⟨nv.1, nv.2, d⟩ hc (hne nv (List.mem_cons_self _ _)))
      (fun x hx => hne x (List.mem_cons_of_mem _ hx))

theorem mem_foldl_setSel (l : List (String × String)) (d : String) :
    ∀ jar, (l.map Prod.fst).Nodup → ∀ nv ∈ l,
      (⟨nv.1, nv.2, d⟩ : SelCookie) ∈
        l.foldl (fun j x => setSelCookie j ⟨x.1, x.2, d⟩) jar := by
  induction l with
  | nil => intro jar _ nv h; cases h
  | cons a l ih =>
    intro jar hnd nv hmem
    rw [List.map_cons, List.nodup_cons] at hnd
    rcases List.mem_cons.mp hmem with h | h
    · subst h
      refine mem_foldl_setSel_stable l d ⟨nv.1, nv.2, d⟩
        (setSelCookie jar ⟨nv.1, nv.2, d⟩) (List.mem_cons_self _ _) ?_
      intro x hx heq
      have heq' : nv.1 = x.1 := heq
      refine hnd.1 ?_
      rw [heq']
      exact List.mem_map_of_mem Prod.fst hx
    · exact ih (setSelCookie jar ⟨a.1, a.2, d⟩) hnd.2 nv h

theorem mem_selCookiesFor_jar (jar : List SelCookie) (d : String) (n v : String)
    (hc : (⟨n, v, d⟩ : SelCookie) ∈ jar) :
    (n, v) ∈ (jar.filter (fun x => x.domain = d)).map (fun x => (x.name, x.value)) := by
  refine List.mem_map.mpr ⟨⟨n, v, d⟩, List.mem_filter.mpr ⟨hc, ?_⟩, rfl⟩
  exact decide_eq_true rfl

section NetlocOpaque

attribute [local irreducible] netloc

theorem selAny_currentDomain (s : WDState) (d : String)
    (h : (selGetCookies s).any (fun c => c.domain = d) = true) :
    s.selCurrentDomain = some d := by
  rcases List.any_eq_true.mp h with ⟨c, hc, hcd⟩
  unfold selGetCookies at hc
  cases hsd : s.selCurrentDomain with
  | none =>
    rw [hsd] at hc
    exact absurd hc (List.not_mem_nil c)
  | some cur =>
    rw [hsd] at hc
    rcases List.mem_filter.mp hc with ⟨_, hcur⟩
    rw [← of_decide_eq_true hcur, of_decide_eq_true hcd]

set_option maxHeartbeats 1000000 in
theorem crs_superset (w : World) (s : WDState) (u : String)
    (hnd : (s.reqCookies.map Prod.fst).Nodup) :
    ∀ nv ∈ s.reqCookies,
      nv ∈ selCookiesFor (cookies_requests_to_selenium w s u) (netloc u) := by
  intro nv hmem
  unfold cookies_requests_to_selenium
  dsimp only
  split
  next hany =>
    have hdom : s.selCurrentDomain = some (netloc u) :=
      selAny_currentDomain s (netloc u) hany
    rw [hdom]
    rcases nv with ⟨n, v⟩
    have hc := mem_foldl_setSel s.reqCookies (netloc u) s.selCookies hnd (n, v) hmem
    unfold selCookiesFor
    exact mem_selCookiesFor_jar _ (netloc u) n v hc
  next hany =>
    rcases nv with ⟨n, v⟩
    have hc := mem_foldl_setSel s.reqCookies (netloc u)
      (bareNavigate w s (netloc u)).selCookies hnd (n, v) hmem
    unfold selCookiesFor
    exact mem_selCookiesFor_jar _ (netloc u) n v hc

theorem get_requests_reqCookies (w : World) (s : WDState) (url : String) :
    (get_requests w s url).reqCookies =
      (w.serverCookies url).foldl setReqCookie s.reqCookies := by
  unfold get_requests cookies_requests_to_selenium
  dsimp only
  split
  · rfl
  · rfl

/-- C2 (amended): cookie synchronization runs on GETs, not on POSTs.  After a
lightweight-transport GET to a url, the interactive engine's cookie set for
the domain of that url includes every cookie of the lightweight jar (the
jar names being distinct, as `get_dict()` guarantees): the lightweight jar is
injected into the interactive engine, bare-navigating to the domain first
when the interactive engine sees no cookie of that domain.  A lightweight
POST performs no synchronization (see the counterexample), so the original
claim quantified over any request fails. -/
theorem c2_get_cookie_sync_superset (w : World) (s : WDState) (url : String)
    (hnd : (s.reqCookies.map Prod.fst).Nodup) :
    ∀ nv ∈ (get_requests w s url).reqCookies,
      nv ∈ selCookiesFor (get_requests w s url) (netloc url) := by
  intro nv hmem
  have hnd' : (((w.serverCookies url).foldl setReqCookie s.reqCookies).map
      Prod.fst).Nodup :=
    foldl_setReqCookie_nodup (w.serverCookies url) s.reqCookies hnd
  rw [get_requests_reqCookies] at hmem
  exact crs_superset w
    { s with reqCookies := (w.serverCookies url).foldl setReqCookie s.reqCookies }
    url hnd' nv hmem

end NetlocOpaque

/- ----------------------------------------------------------------
   Claim theorems
   ---------------------------------------------------------------- -/

/-- C1: every patient of a batch is finalized exactly once (one
`evAddPatient` per patient, so the batch never aborts on a per-patient
error), and whenever processing one patient raises, the wrapper records the
error as a comment on that patient and processing proceeds.  The recovery
wrapper `patientProcessorProcess` is modelled from the spec (the
`PatientProcessor` class called by the batch loop is not under src/). -/
theorem c1_per_patient_errors_never_abort_batch (w : World) (cfg : RulesConfig)
    (patients : List PatientData) :
    countAddPatient (patientsLoop w cfg patients) = patients.length ∧
    ∀ pd e tr, process_patient w cfg pd = (Except.error e, tr) →
      patientProcessorProcess w cfg pd =
        tr ++ [Event.evAddPatient none (errorComment e)] := by
  constructor
  · exact countAdd_patientsLoop w cfg patients
  · intro pd e tr h
    unfold patientProcessorProcess
    rw [h]

/-- Witness for C1: a concrete batch of one patient whose confirmation
raises the no-matching-category error; the batch still finalizes exactly one
patient and the error is recorded as a comment. -/
theorem c1_per_patient_errors_never_abort_batch_witness :
    countAddPatient (patientsLoop w1 cfg0 [pd1p]) = 1 ∧
    patientProcessorProcess w1 cfg0 pd1p =
      (Event.evGetReq (urlCercaQuadro "XB1") :: preCategoryTrace "XB1") ++
        [Event.evAddPatient none (errorComment PyError.noMatchingCategory)] :=
  ⟨(c1_per_patient_errors_never_abort_batch w1 cfg0 [pd1p]).1,
   (c1_per_patient_errors_never_abort_batch w1 cfg0 [pd1p]).2 pd1p
     PyError.noMatchingCategory
     (Event.evGetReq (urlCercaQuadro "XB1") :: preCategoryTrace "XB1") (by rfl)⟩

/-- C2 counterexample: a lightweight POST does not synchronize cookies, so
the claim "after any request on one transport to a domain, the other
transport's jar for that domain is updated before its next request" is
false.  After a POST on the lightweight transport (jar holding `sid`)
followed by an interactive request to the same domain, the interactive
engine's cookie set for the domain is still empty. -/
theorem c2_post_no_sync_counterexample :
    ("sid", "abc") ∈
      (get_selenium wBase
        (wdPost wBase wdSid "https://app.investire-in-italy.it/login" [("k", "v")])
        "https://app.investire-in-italy.it/page").reqCookies ∧
    selCookiesFor
      (get_selenium wBase
        (wdPost wBase wdSid "https://app.investire-in-italy.it/login" [("k", "v")])
        "https://app.investire-in-italy.it/page") "app.investire-in-italy.it" = [] :=
  ⟨by decide, rfl⟩

/-- Witness for the amended C2: a concrete lightweight GET after which the
interactive jar for the domain holds the lightweight cookie. -/
theorem c2_get_cookie_sync_superset_witness :
    ("sid", "abc") ∈ selCookiesFor
      (get_requests wBase wdSid "https://app.investire-in-italy.it/page")
      (netloc "https://app.investire-in-italy.it/page") :=
  c2_get_cookie_sync_superset wBase wdSid "https://app.investire-in-italy.it/page"
    (by decide) ("sid", "abc") (by decide)

/-- C3: the category fallback tries, in order, the recorded procedure code,
"Visite specialistiche", "Altre prestazioni"; the first label present among
the offered options is the one clicked, and when none of the three is
offered the procedure raises the typed no-matching-category error. -/
theorem c3_category_fallback_first_match (w : World) (pnr esame code : String)
    (hel : ∀ ident, w.hasElement ident = true)
    (hmsg : w.verificaMessages ≠ []) :
    (code ∈ w.kItems →
      selectedCategory (check_request_accepted w pnr esame code).2 = some code) ∧
    (code ∉ w.kItems → "Visite specialistiche" ∈ w.kItems →
      selectedCategory (check_request_accepted w pnr esame code).2 =
        some "Visite specialistiche") ∧
    (code ∉ w.kItems → "Visite specialistiche" ∉ w.kItems →
      "Altre prestazioni" ∈ w.kItems →
      selectedCategory (check_request_accepted w pnr esame code).2 =
        some "Altre prestazioni") ∧
    (code ∉ w.kItems → "Visite specialistiche" ∉ w.kItems →
      "Altre prestazioni" ∉ w.kItems →
      (check_request_accepted w pnr esame code).1 =
        Except.error PyError.noMatchingCategory) := by
  refine ⟨?_, ?_, ?_, ?_⟩
  · intro h
    have hcat : findCategory w.kItems (codesToTry code) = some code :=
      findCategory_mem w.kItems code _ h
    rw [check_ok w pnr esame code code hel hcat hmsg]
    exact selectedCategory_confirmTrace pnr esame code
  · intro h1 h2
    have hcat : findCategory w.kItems (codesToTry code) =
        some "Visite specialistiche" := by
      unfold codesToTry
      rw [findCategory_not_mem w.kItems code _ h1]
      exact findCategory_mem w.kItems _ _ h2
    rw [check_ok w pnr esame code _ hel hcat hmsg]
    exact selectedCategory_confirmTrace pnr esame _
  · intro h1 h2 h3
    have hcat : findCategory w.kItems (codesToTry code) =
        some "Altre prestazioni" := by
      unfold codesToTry
      rw [findCategory_not_mem w.kItems code _ h1,
        findCategory_not_mem w.kItems _ _ h2]
      exact findCategory_mem w.kItems _ _ h3
    rw [check_ok w pnr esame code _ hel hcat hmsg]
    exact selectedCategory_confirmTrace pnr esame _
  · intro h1 h2 h3
    have hcat : findCategory w.kItems (codesToTry code) = none := by
      unfold codesToTry
      rw [findCategory_not_mem w.kItems code _ h1,
        findCategory_not_mem w.kItems _ _ h2,
        findCategory_not_mem w.kItems _ _ h3]
      rfl
    rw [check_noMatch w pnr esame code hel hcat]

/-- Witness for C3: with only "Altre prestazioni" offered and a procedure
code matching nothing, the terminal fallback option is clicked. -/
theorem c3_category_fallback_first_match_witness :
    selectedCategory (check_request_accepted w3 "XB1" "RMN" "PRSZ").2 =
      some "Altre prestazioni" :=
  (c3_category_fallback_first_match w3 "XB1" "RMN" "PRSZ" (fun _ => rfl)
    (by decide)).2.2.1 (by decide) (by decide) (by decide)

/-- C4: when the per-tracking-id loop completes, the shared comment log is
the input log extended in order (comments only appended), and the final
record and log are exactly the output of the last processed tracking id
(last-write-wins); the loop factors as the processing of every earlier
tracking id in list order followed by the last one. -/
theorem c4_loop_comments_append_last_write_wins (w : World) (cfg : RulesConfig)
    (pd : PatientData) (pnrs : List String) (comments : List String)
    (pdF : PatientData) (cF : List String) (tr : List Event)
    (h : processPnrList w cfg pd pnrs comments = (Except.ok (pdF, cF), tr)) :
    (∃ extra, cF = comments ++ extra) ∧
    (∀ init lastPnr, pnrs = init ++ [lastPnr] →
      ∃ pdm cm tr1 tr2,
        processPnrList w cfg pd init comments = (Except.ok (pdm, cm), tr1) ∧
        process_pnr w cfg pdm lastPnr cm = (Except.ok (pdF, cF), tr2) ∧
        tr = tr1 ++ tr2) := by
  constructor
  · exact processPnrList_comments_mono w cfg pnrs pd comments pdF cF tr h
  · intro init lastPnr heq
    subst heq
    rw [processPnrList_append_split] at h
    obtain ⟨pc, tr1, tr2, ha, hb, htr⟩ := pyBind_ok_inv _ _ _ _ h
    rcases pc with ⟨pdm, cm⟩
    unfold processPnrList at hb
    rw [bind_eq] at hb
    obtain ⟨pc2, tr2a, tr2b, hb1, hb2, htr2⟩ := pyBind_ok_inv _ _ _ _ hb
    unfold processPnrList pyPure at hb2
    injection hb2 with hA hB
    injection hA with hA'
    have hpc : pc2 = (pdF, cF) := (Prod.mk.eta).symm.trans hA'
    have htr2' : tr2 = tr2a := by rw [htr2, ← hB, List.append_nil]
    refine ⟨pdm, cm, tr1, tr2, ha, ?_, htr⟩
    rw [hb1, hpc, htr2']

/-- Witness for C4: a two-tracking-id patient in an environment resolving
every page to status 0; the loop completes, appends nothing beyond the
webportal rules, and the final record is the output of the second id. -/
theorem c4_loop_comments_append_last_write_wins_witness :
    (∃ extra, ([] : List String) = [] ++ extra) ∧
    (∃ pdm cm tr1 tr2,
      processPnrList w4 cfg0 pd4 ["A1"] [] = (Except.ok (pdm, cm), tr1) ∧
      process_pnr w4 cfg0 pdm "A2" cm =
        (Except.ok ({ pd4 with pnrStatus := some 0, pic := none }, []), tr2) ∧
      [Event.evGetReq (urlCercaQuadro "A1"), Event.evGetReq (urlCercaQuadro "A2")] =
        tr1 ++ tr2) := by
  have h := c4_loop_comments_append_last_write_wins w4 cfg0 pd4 ["A1", "A2"] []
    { pd4 with pnrStatus := some 0, pic := none } []
    [Event.evGetReq (urlCercaQuadro "A1"), Event.evGetReq (urlCercaQuadro "A2")]
    (by rfl)
  exact ⟨h.1, h.2 ["A1"] "A2" rfl⟩

/-- C5: for a tracking id resolving to status 1 or 2, the authorization-id
fetch (the paginated-search POST) is always attempted, the interactive
confirmation runs beforehand exactly when the status is 1 (its navigation
appears in the trace for status 1 and never for status 2); for any other
status the authorization id is set to `none` and the trace is the single
lookup GET, so no document fetch or validation occurs. -/
theorem c5_status_branching (w : World) (cfg : RulesConfig) (pd : PatientData)
    (pnr : String) (comments : List String) :
    ((statusForPnr w pnr = 1 ∨ statusForPnr w pnr = 2) →
      (statusForPnr w pnr = 1 →
        (check_request_accepted w pnr pd.esame pd.prestazioni).1 = Except.ok ()) →
      Event.evPost urlGridAuth (gridPayload pnr) ∈
        (process_pnr w cfg pd pnr comments).2) ∧
    (statusForPnr w pnr = 1 →
      Event.evGetSel urlIdentify ∈ (process_pnr w cfg pd pnr comments).2) ∧
    (statusForPnr w pnr = 2 →
      ∀ u, Event.evGetSel u ∉ (process_pnr w cfg pd pnr comments).2) ∧
    (statusForPnr w pnr ≠ 1 → statusForPnr w pnr ≠ 2 →
      process_pnr w cfg pd pnr comments =
        (Except.ok ({ pd with pnrStatus := some (statusForPnr w pnr), pic := none },
          (executeRules cfg.webportalRules
            { pd with pnrStatus := some (statusForPnr w pnr), pic := none }
            comments).2),
         [Event.evGetReq (urlCercaQuadro pnr)])) := by
  refine ⟨?_, ?_, ?_, ?_⟩
  · intro h12 hconf
    rcases h12 with h1 | h2
    · rcases hcc : check_request_accepted w pnr pd.esame pd.prestazioni with ⟨rc, cev⟩
      have hok := hconf h1
      rw [hcc] at hok
      cases rc with
      | error e => exact absurd hok (by simp)
      | ok u =>
        cases u
        rcases hrow : w.picData pnr with _ | ⟨row, rows⟩
        · rw [process_pnr_status1_picErr w cfg pd pnr comments cev h1 hcc hrow]
          simp
        · rw [process_pnr_status1_ok w cfg pd pnr comments cev row rows h1 hcc hrow]
          simp
    · rcases hrow : w.picData pnr with _ | ⟨row, rows⟩
      · rw [process_pnr_status2_picErr w cfg pd pnr comments h2 hrow]
        simp
      · rw [process_pnr_status2_ok w cfg pd pnr comments row rows h2 hrow]
        simp
  · intro h1
    rcases hcc : check_request_accepted w pnr pd.esame pd.prestazioni with ⟨rc, cev⟩
    have hhead := check_trace_head w pnr pd.esame pd.prestazioni
    rw [hcc] at hhead
    obtain ⟨rest, hrest⟩ := hhead
    have hcev : cev = Event.evGetSel urlIdentify :: rest := hrest
    cases rc with
    | error e =>
      rw [process_pnr_confErr w cfg pd pnr comments e cev h1 hcc, hcev]
      simp
    | ok u =>
      cases u
      rcases hrow : w.picData pnr with _ | ⟨row, rows⟩
      · rw [process_pnr_status1_picErr w cfg pd pnr comments cev h1 hcc hrow, hcev]
        simp
      · rw [process_pnr_status1_ok w cfg pd pnr comments cev row rows h1 hcc hrow, hcev]
        simp
  · intro h2 u hmem
    rcases hrow : w.picData pnr with _ | ⟨row, rows⟩
    · rw [process_pnr_status2_picErr w cfg pd pnr comments h2 hrow] at hmem
      simp at hmem
    · rw [process_pnr_status2_ok w cfg pd pnr comments row rows h2 hrow] at hmem
      simp at hmem
  · intro h1 h2
    exact process_pnr_other w cfg pd pnr comments (statusForPnr w pnr) rfl h1 h2

/-- Witness for C5: a tracking id resolving to status 2; the paginated
search POST appears in the trace without any interactive navigation. -/
theorem c5_status_branching_witness :
    Event.evPost urlGridAuth (gridPayload "B1") ∈
      (process_pnr w5 cfg0 pd5 "B1" []).2 :=
  (c5_status_branching w5 cfg0 pd5 "B1" []).1 (Or.inr rfl)
    (fun h => absurd h (by decide))

/-- C6: a patient record matching at least one deal-breaker rule is
finalized immediately: the run returns with exactly one finalization event
whose authorization id is `none` and whose comment is the joined matched
action texts, and the trace contains no network event, so no tracking id was
processed and no portal call occurred. -/
theorem c6_deal_breaker_gate (w : World) (cfg : RulesConfig) (pd : PatientData)
    (h : ∃ r ∈ cfg.dealBreakers,
      r.cond { pd with age := w.ageOf pd.birthday } = true) :
    process_patient w cfg pd =
      (Except.ok (), [Event.evAddPatient none
        (joinSlash (matchedActions cfg.dealBreakers
          { pd with age := w.ageOf pd.birthday }))]) ∧
    ∀ e ∈ (process_patient w cfg pd).2, isNetworkEvent e = false := by
  obtain ⟨r, hr, hcond⟩ := h
  have hpos : 0 < (matchedActions cfg.dealBreakers
      { pd with age := w.ageOf pd.birthday }).length := by
    unfold matchedActions
    rw [List.length_map]
    exact List.length_pos.mpr (List.ne_nil_of_mem (List.mem_filter.mpr ⟨hr, hcond⟩))
  have heq := process_patient_dealBreaker w cfg pd hpos
  refine ⟨heq, ?_⟩
  intro e he
  rw [heq] at he
  obtain rfl := List.mem_singleton.mp he
  rfl

/-- Witness for C6: with an always-matching deal-breaker rule, the concrete
patient is rejected with authorization id `none` and the rule's action text,
with no network traffic. -/
theorem c6_deal_breaker_gate_witness :
    process_patient wBase cfg6 pdX =
      (Except.ok (), [Event.evAddPatient none "missing data"]) ∧
    ∀ e ∈ (process_patient wBase cfg6 pdX).2, isNetworkEvent e = false :=
  c6_deal_breaker_gate wBase cfg6 pdX
    ⟨⟨fun _ => true, "missing data"⟩, List.mem_singleton.mpr rfl, rfl⟩

/-- C7 (code bug): on an empty result set from the paginated search, the
authorization-id lookup raises the unchecked IndexError of `Data[0]` rather
than a typed authorization-id-not-found failure; here the code is evaluated
at the failing input (a portal answering with an empty `Data` array). -/
theorem c7_empty_result_unchecked_index :
    fetch_pic_from_database wBase "XB123456" =
      (Except.error PyError.indexError,
       [Event.evPost urlGridAuth (gridPayload "XB123456")]) := rfl

/-- C8: with nonempty credentials, login submits the same authenticating
POST, with fields UserName and Password, exactly twice in immediate
sequence against the portal login form and nothing else; with an empty
username or password the batch driver raises the fatal configuration error
with an empty trace, so no patient is processed. -/
theorem c8_login_double_post_and_credential_gate (u p : String) :
    (u ≠ "" → p ≠ "" → login u p =
      (Except.ok (),
       [Event.evPost urlLogin [("UserName", u), ("Password", p)],
        Event.evPost urlLogin [("UserName", u), ("Password", p)]])) ∧
    ((u = "" ∨ p = "") → ∀ w cfg patients,
      process_patients w cfg patients u p =
        (Except.error PyError.missingCredentials, [])) := by
  constructor
  · intro hu hp
    unfold login
    rw [if_neg (fun hor => hor.elim hu hp)]
  · intro h w cfg patients
    unfold process_patients login
    rw [if_pos h]

/-- Witness for C8: concrete credentials produce the exact double POST; an
empty username aborts a concrete batch before any patient event. -/
theorem c8_login_double_post_and_credential_gate_witness :
    login "user" "pw" =
      (Except.ok (),
       [Event.evPost urlLogin [("UserName", "user"), ("Password", "pw")],
        Event.evPost urlLogin [("UserName", "user"), ("Password", "pw")]]) ∧
    process_patients wBase cfg0 [pdX] "" "pw" =
      (Except.error PyError.missingCredentials, []) :=
  ⟨(c8_login_double_post_and_credential_gate "user" "pw").1 (by decide) (by decide),
   (c8_login_double_post_and_credential_gate "" "pw").2 (Or.inl rfl) wBase cfg0 [pdX]⟩

/-- C9 (code bug): the driver release is a plain call after the batch loop,
not a scoped acquisition: on the login-error exit path (empty username) the
run aborts with an empty trace and the quit event never occurs, so the
resource is not released on every exit path as claimed. -/
theorem c9_login_error_skips_quit :
    process_patients wBase cfg0 [pdX] "" "secret" =
      (Except.error PyError.missingCredentials, []) ∧
    Event.evQuit ∉ (process_patients wBase cfg0 [pdX] "" "secret").2 := by
  constructor
  · rfl
  · intro hmem
    have h : (process_patients wBase cfg0 [pdX] "" "secret").2 =
        ([] : List Event) := rfl
    rw [h] at hmem
    exact List.not_mem_nil _ hmem

/-- C10: at the public get interface, the selenium backend performs the
navigation and cookie sync but returns no response value (python `None`),
the requests backend returns the response, and any other backend name
raises the unknown-backend configuration error. -/
theorem c10_get_backend_return_values (w : World) (s : WDState) (url : String) :
    wdGet w s url "selenium" = Except.ok (get_selenium w s url, none) ∧
    wdGet w s url "requests" =
      Except.ok (get_requests w s url, some (w.pageText url)) ∧
    ∀ b, b ≠ "selenium" → b ≠ "requests" →
      wdGet w s url b = Except.error (PyError.unknownBackend b) := by
  refine ⟨rfl, rfl, ?_⟩
  intro b h1 h2
  unfold wdGet
  rw [if_neg h1, if_neg h2]

/-- Witness for C10: an unknown backend name raises at a concrete input. -/
theorem c10_get_backend_return_values_witness :
    wdGet wBase wd0 "https://app.investire-in-italy.it/x" "playwright" =
      Except.error (PyError.unknownBackend "playwright") :=
  (c10_get_backend_return_values wBase wd0
    "https://app.investire-in-italy.it/x").2.2 "playwright" (by decide) (by decide)
